import Mathlib

/-!  Formal model of `src/app.py` (Azure-flask-hello): the lock-guarded
request counter, the `/api/status` endpoint, and the `/events`
server-sent-events stream.

Modelling conventions:
* Timestamps are rationals (seconds since the UTC epoch).  Python's
  `datetime.isoformat` is modelled by `isoformat`, an injective textual
  encoding of the instant; `int()` applied to the exact difference of two
  timestamps is modelled by `py_int`, truncation toward zero.
* The `threading.Lock` (`_LOCK`, line 22) serializes every access to the
  two mutable globals, so concurrent executions are modelled as sequential
  interleavings of the lock-guarded blocks.
* JSON payloads produced by the app are flat objects whose values are
  null, integers or strings, modelled by `JObj` over `JAtom`, with a
  renderer following `json.dumps` defaults (separators `", "` / `": "`).
-/

/-- The mutable module state of app.py: `_TOTAL_REQUESTS` (line 23) and
`_LAST_HIT_UTC` (line 24).  `_LAST_HIT_UTC` starts as `None`; the immutable
`STARTED_AT` (line 21) lives in `Env` below. -/
structure Counter where
  total_requests : ℕ
  last_hit_utc : Option ℚ
  deriving Repr, DecidableEq

/-- Initial state at process start: `_TOTAL_REQUESTS = 0`, `_LAST_HIT_UTC = None`
(lines 23-24). -/
def counterInit : Counter := { total_requests := 0, last_hit_utc := none }

/-- Python `int()` on an exact rational: truncation toward zero. -/
def py_int (q : ℚ) : ℤ := if 0 ≤ q then ⌊q⌋ else ⌈q⌉

/-- `datetime.isoformat()` modelled as an injective textual encoding of the
instant; the calendar grammar itself is Python-library behaviour outside the
embedded core. -/
def isoformat (t : ℚ) : String := "utc+" ++ toString t.num ++ "/" ++ toString t.den

/-- `_uptime_seconds` (lines 31-32): `int((now - STARTED_AT).total_seconds())`. -/
def uptime_seconds (started now : ℚ) : ℤ := py_int (now - started)

/-- `_count_requests` (lines 35-40), the `before_request` hook: under the lock,
increment `_TOTAL_REQUESTS` and set `_LAST_HIT_UTC` to the current time. -/
def count_requests (s : Counter) (now : ℚ) : Counter :=
  { total_requests := s.total_requests + 1, last_hit_utc := some now }

/-- The lock-guarded read of the counter pair, as performed at lines 55-57
and 85-87: a consistent `(total, last)` snapshot. -/
def snapshot (s : Counter) : ℕ × Option ℚ := (s.total_requests, s.last_hit_utc)

/-- A JSON value as produced by the app's payloads: null, integer or string. -/
inductive JAtom where
  | jnull : JAtom
  | jint : ℤ → JAtom
  | jstr : String → JAtom
  deriving Repr, DecidableEq

/-- Rendered form of a JSON value (`json.dumps`). -/
def JAtom.render : JAtom → String
  | .jnull => "null"
  | .jint n => toString n
  | .jstr s => "\"" ++ s ++ "\""

/-- A flat JSON object: an ordered list of key/value fields. -/
structure JObj where
  fields : List (String × JAtom)
  deriving Repr, DecidableEq

/-- Field list rendered with `json.dumps` default separators. -/
def renderFields : List (String × JAtom) → String
  | [] => ""
  | [(k, v)] => "\"" ++ k ++ "\": " ++ v.render
  | (k, v) :: rest => "\"" ++ k ++ "\": " ++ v.render ++ ", " ++ renderFields rest

/-- Rendered form of a JSON object. -/
def JObj.render (o : JObj) : String := "\x7b" ++ renderFields o.fields ++ "\x7d"

/-- The keys of a JSON object, in order. -/
def JObj.keys (o : JObj) : List String := o.fields.map (fun p => p.1)

/-- First value bound to a key in a field list. -/
def lookupField : List (String × JAtom) → String → Option JAtom
  | [], _ => none
  | (k, v) :: rest, key => if k = key then some v else lookupField rest key

/-- `last.isoformat() if last else None` (lines 57 and 87). -/
def optIso : Option ℚ → JAtom
  | none => JAtom.jnull
  | some t => JAtom.jstr (isoformat t)

/-- Immutable per-process environment: `STARTED_AT` plus the strings the
status handler reads from the interpreter / WSGI environment. -/
structure Env where
  started : ℚ
  python : String
  site : String
  remote : String
  deriving Repr, DecidableEq

/-- The JSON object returned by `api_status` (lines 53-71), built from the
lock-guarded snapshot and `_uptime_seconds()`. -/
def api_status (s : Counter) (started now : ℚ) (python site remote : String) : JObj :=
  ⟨[("app", JAtom.jstr "zeinab-flabbergasted-launch"),
    ("status", JAtom.jstr "ok"),
    ("started_utc", JAtom.jstr (isoformat started)),
    ("uptime_seconds", JAtom.jint (uptime_seconds started now)),
    ("total_requests", JAtom.jint ((snapshot s).1 : ℤ)),
    ("last_hit_utc", optIso (snapshot s).2),
    ("python", JAtom.jstr python),
    ("azure_site_name", JAtom.jstr site),
    ("remote_addr", JAtom.jstr remote)]⟩

/-- The payload built by one iteration of `events.gen` (lines 89-94). -/
def gen_payload (s : Counter) (started now : ℚ) : JObj :=
  ⟨[("uptime", JAtom.jint (uptime_seconds started now)),
    ("total_requests", JAtom.jint ((snapshot s).1 : ℤ)),
    ("last_hit_utc", optIso (snapshot s).2),
    ("ts", JAtom.jstr (isoformat now))]⟩

/-- The SSE text block yielded at line 95: `f"data: \x7bjson.dumps(payload)\x7d\n\n"`. -/
def gen_message (s : Counter) (started now : ℚ) : String :=
  "data: " ++ (gen_payload s started now).render ++ "\n\n"

/-- The messages `events.gen` yields when pulled `n` times: each pull runs
one loop iteration (lines 84-96), and `time.sleep(1)` at line 96 places the
next iteration one second later. -/
def gen_messages (s : Counter) (started : ℚ) : ℚ → ℕ → List String
  | _, 0 => []
  | t0, n + 1 => gen_message s started t0 :: gen_messages s started (t0 + 1) n

/-- One iteration of the `events.gen` loop body (lines 84-96) as a state
transformer: it reads the globals under the lock and writes none of them, so
its state component is the identity. -/
def gen_step (s : Counter) (started now : ℚ) : Counter × String :=
  (s, gen_message s started now)

/-- The exit test of the `events.gen` loop (line 84, `while True`): the loop
condition is the constant true and the body contains no `break` and no check
of the outcome of the just-completed `yield`; the parameter records that
emit outcome, which the loop ignores. -/
def gen_loop_continue : Bool → Bool := fun _ => true

/-- The app's routes.  The `before_request` hook applies to every one of them. -/
inductive Route where
  | status : Route
  | healthz : Route
  | events : Route
  | home : Route
  deriving Repr, DecidableEq

/-- A handler response: JSON body, plain text with status code, the SSE
stream (whose messages are modelled by `gen_messages`), or the HTML page. -/
inductive Resp where
  | json : JObj → Resp
  | text : String → ℕ → Resp
  | stream : Resp
  | html : Resp
  deriving Repr, DecidableEq

/-- The route handlers (lines 53-106, 109-655).  Each reads state; none
mutates it. -/
def respond (e : Env) (r : Route) (s : Counter) (now : ℚ) : Resp :=
  match r with
  | .status => Resp.json (api_status s e.started now e.python e.site e.remote)
  | .healthz => Resp.text "ok" 200
  | .events => Resp.stream
  | .home => Resp.html

/-- Full dispatch of one inbound request: Flask runs the `before_request`
hook `_count_requests` first (lines 35-40), then the route handler on the
updated state. -/
def handle (e : Env) (s : Counter) (r : Route) (now : ℚ) : Counter × Resp :=
  let s1 := count_requests s now
  (s1, respond e r s1 now)

/-- State effect of a sequence of inbound requests, each a route and its
arrival time. -/
def applyReqs (e : Env) (s : Counter) (reqs : List (Route × ℚ)) : Counter :=
  reqs.foldl (fun c p => (handle e c p.1 p.2).1) s

/-- Value of `lookupField` on a field in a JSON body, `none` for non-JSON
responses. -/
def respField (r : Resp) (k : String) : Option JAtom :=
  match r with
  | .json o => lookupField o.fields k
  | _ => none

/-- One run of an `/events` stream interleaved with other inbound traffic:
before message `i` the requests in `opss[i]` arrive, then the generator is
pulled once (its state effect is `gen_step`).  Returns the final shared
state and the messages produced. -/
def stream_run (e : Env) : Counter → List (List (Route × ℚ)) → ℚ → Counter × List String
  | s, [], _ => (s, [])
  | s, ops :: rest, t =>
      let s1 := applyReqs e s ops
      let step := gen_step s1 e.started t
      let r := stream_run e step.1 rest (t + 1)
      (r.1, step.2 :: r.2)

/-- Modelled from the spec: the WSGI driver of the generator, which is not
part of app.py.  It pulls `events.gen`, writes the chunk to the client
(`ok 0` tells whether that write succeeds), and on a failed write stops
pulling and closes the generator.  `fuel` bounds the run; the result is the
list of messages pulled from the generator. -/
def driven_messages (s : Counter) (started : ℚ) : (ℕ → Bool) → ℚ → ℕ → List String
  | _, _, 0 => []
  | ok, t, fuel + 1 =>
      let m := gen_message s started t
      if ok 0 then m :: driven_messages s started (fun i => ok (i + 1)) (t + 1) fuel
      else [m]

/-! ## Helper lemmas -/

theorem foldl_count_total (hits : List ℚ) :
    ∀ s : Counter, (hits.foldl count_requests s).total_requests = s.total_requests + hits.length := by
  induction hits with
  | nil => intro s; simp
  | cons h t ih =>
      intro s
      rw [List.foldl_cons, ih (count_requests s h)]
      simp [count_requests]
      omega

theorem applyReqs_total (e : Env) (reqs : List (Route × ℚ)) :
    ∀ s : Counter, (applyReqs e s reqs).total_requests = s.total_requests + reqs.length := by
  induction reqs with
  | nil => intro s; rfl
  | cons p rest ih =>
      intro s
      have hstep : applyReqs e s (p :: rest) = applyReqs e (count_requests s p.2) rest := rfl
      rw [hstep, ih (count_requests s p.2)]
      simp [count_requests]
      omega

theorem applyReqs_last_some_total (e : Env) (reqs : List (Route × ℚ)) :
    ∀ s : Counter, (s.last_hit_utc = none ∨ 1 ≤ s.total_requests) →
      ((applyReqs e s reqs).last_hit_utc = none ∨ 1 ≤ (applyReqs e s reqs).total_requests) := by
  induction reqs with
  | nil => intro s h; exact h
  | cons p rest ih =>
      intro s _
      have hstep : applyReqs e s (p :: rest) = applyReqs e (count_requests s p.2) rest := rfl
      rw [hstep]
      exact ih (count_requests s p.2) (Or.inr (by simp [count_requests]))

theorem applyReqs_last_ge (e : Env) (started : ℚ) (reqs : List (Route × ℚ)) :
    ∀ s : Counter, (∀ p ∈ reqs, started ≤ p.2) →
      (∀ t : ℚ, s.last_hit_utc = some t → started ≤ t) →
      ∀ t : ℚ, (applyReqs e s reqs).last_hit_utc = some t → started ≤ t := by
  induction reqs with
  | nil => intro s _ h; exact h
  | cons p rest ih =>
      intro s hreq h
      have hp : started ≤ p.2 := hreq p (by simp)
      have hstep : applyReqs e s (p :: rest) = applyReqs e (count_requests s p.2) rest := rfl
      rw [hstep]
      refine ih (count_requests s p.2) (fun q hq => hreq q (by simp [hq])) ?_
      intro u hu
      simp [count_requests] at hu
      exact hu ▸ hp

theorem gen_messages_getElem (s : Counter) (started : ℚ) (n : ℕ) :
    ∀ (t0 : ℚ) (i : ℕ), (gen_messages s started t0 n)[i]? =
      if i < n then some (gen_message s started (t0 + (i : ℚ))) else none := by
  induction n with
  | zero => intro t0 i; simp [gen_messages]
  | succ n ih =>
      intro t0 i
      cases i with
      | zero => simp [gen_messages]
      | succ i =>
          simp only [gen_messages, List.getElem?_cons_succ, ih (t0 + 1) i]
          have harg : t0 + 1 + (i : ℚ) = t0 + ((i + 1 : ℕ) : ℚ) := by push_cast; ring
          rw [harg]
          simp [Nat.succ_lt_succ_iff]

theorem stream_run_state (e : Env) (opss : List (List (Route × ℚ))) :
    ∀ (s : Counter) (t0 : ℚ),
      (stream_run e s opss t0).1 = opss.foldl (fun c ops => applyReqs e c ops) s := by
  induction opss with
  | nil => intro s t0; rfl
  | cons ops rest ih =>
      intro s t0
      simpa [stream_run] using ih (applyReqs e s ops) (t0 + 1)

/-! ## Claim theorems -/

/-- C1: for every N, after a sequence of N `record_hit` calls (the
`_count_requests` hook, serialized by the lock) starting from the initial
state, a subsequent `snapshot` returns `total_requests = N`: no update is
lost. -/
theorem record_hit_sequence_counts_all (hits : List ℚ) :
    (snapshot (hits.foldl count_requests counterInit)).1 = hits.length := by
  have h := foldl_count_total hits counterInit
  simpa [snapshot, counterInit] using h

/-- C2 (counterexample): the `events.gen` loop is `while True`; it continues
even when told the emit just failed, and the generator, if pulled three
times, produces three messages regardless of any write failures — the exit
condition is not a checked result of the emit operation. -/
theorem events_loop_ignores_emit_result :
    gen_loop_continue false = true ∧ (gen_messages counterInit 0 0 3).length = 3 :=
  ⟨rfl, rfl⟩

/-- C2 (amended): when the WSGI driver of the generator stops pulling and
closes it after the first failed write (at iteration `k`), the stream stops
producing output within one loop iteration: exactly `k + 1` messages are
ever pulled, and the run ends normally with no error value. -/
theorem events_stream_stops_after_failed_write (s : Counter) (started : ℚ) :
    ∀ (k : ℕ) (ok : ℕ → Bool) (t0 : ℚ) (fuel : ℕ),
      (∀ i, i < k → ok i = true) → ok k = false → k < fuel →
      (driven_messages s started ok t0 fuel).length = k + 1 := by
  intro k
  induction k with
  | zero =>
      intro ok t0 fuel _ hfail hfuel
      match fuel, hfuel with
      | fuel + 1, _ => simp [driven_messages, hfail]
  | succ k ih =>
      intro ok t0 fuel hok hfail hfuel
      match fuel, hfuel with
      | fuel + 1, hfuel =>
        have h0 : ok 0 = true := hok 0 (Nat.succ_pos k)
        simp only [driven_messages, h0, if_true, List.length_cons]
        rw [ih (fun i => ok (i + 1)) (t0 + 1) fuel
          (fun i hi => hok (i + 1) (Nat.succ_lt_succ hi)) hfail (Nat.lt_of_succ_lt_succ hfuel)]

/-- C2 (witness): with writes succeeding at iterations 0 and 1 and failing
at iteration 2, exactly 3 messages are produced. -/
theorem events_stream_stops_witness :
    (driven_messages counterInit 0 (fun i => decide (i < 2)) 0 5).length = 3 :=
  events_stream_stops_after_failed_write counterInit 0 2 (fun i => decide (i < 2)) 0 5
    (fun i hi => decide_eq_true hi) (by decide) (by decide)

/-- C3: every message produced by `GET /events` is the text block
`data: <JSON object>\n\n` whose JSON object has precisely the fields
`uptime` (integer), `total_requests` (integer), `last_hit_utc` (string or
null) and `ts` (the encoded sample instant); message `i` samples instant
`t0 + i`, one message per second. -/
theorem events_message_format (s : Counter) (started t0 : ℚ) (n i : ℕ) :
    (gen_messages s started t0 n)[i]? =
      (if i < n then some (gen_message s started (t0 + (i : ℚ))) else none) ∧
    gen_message s started (t0 + (i : ℚ)) =
      "data: " ++ (gen_payload s started (t0 + (i : ℚ))).render ++ "\n\n" ∧
    (gen_payload s started (t0 + (i : ℚ))).keys
      = ["uptime", "total_requests", "last_hit_utc", "ts"] ∧
    lookupField (gen_payload s started (t0 + (i : ℚ))).fields "uptime"
      = some (JAtom.jint (uptime_seconds started (t0 + (i : ℚ)))) ∧
    lookupField (gen_payload s started (t0 + (i : ℚ))).fields "total_requests"
      = some (JAtom.jint ((snapshot s).1 : ℤ)) ∧
    lookupField (gen_payload s started (t0 + (i : ℚ))).fields "last_hit_utc"
      = some (optIso (snapshot s).2) ∧
    (∀ q : Option ℚ, optIso q = JAtom.jnull ∨ ∃ str : String, optIso q = JAtom.jstr str) ∧
    lookupField (gen_payload s started (t0 + (i : ℚ))).fields "ts"
      = some (JAtom.jstr (isoformat (t0 + (i : ℚ)))) := by
  refine ⟨gen_messages_getElem s started n t0 i, rfl, rfl, rfl, rfl, rfl, ?_, rfl⟩
  intro q
  cases q with
  | none => exact Or.inl rfl
  | some u => exact Or.inr ⟨isoformat u, rfl⟩

/-- C4: the `GET /api/status` JSON object contains the fields
`uptime_seconds` (integer), `total_requests` (integer) and `last_hit_utc`,
which is the encoded last-hit instant when one has been recorded and null
otherwise. -/
theorem api_status_reports_fields (s : Counter) (started now : ℚ) (py site remote : String) :
    lookupField (api_status s started now py site remote).fields "uptime_seconds"
        = some (JAtom.jint (uptime_seconds started now)) ∧
    lookupField (api_status s started now py site remote).fields "total_requests"
        = some (JAtom.jint ((snapshot s).1 : ℤ)) ∧
    lookupField (api_status s started now py site remote).fields "last_hit_utc"
        = some (optIso (snapshot s).2) ∧
    optIso none = JAtom.jnull ∧
    ∀ t : ℚ, optIso (some t) = JAtom.jstr (isoformat t) :=
  ⟨rfl, rfl, rfl, rfl, fun _ => rfl⟩

/-- C5: `total_requests` starts at 0, is incremented by exactly 1 per
inbound request by the hook that runs before handler dispatch, and never
decreases across any sequence of requests. -/
theorem total_requests_monotone :
    counterInit.total_requests = 0 ∧
    (∀ (s : Counter) (now : ℚ), (count_requests s now).total_requests = s.total_requests + 1) ∧
    (∀ (e : Env) (s : Counter) (r : Route) (now : ℚ),
      (handle e s r now).1.total_requests = s.total_requests + 1) ∧
    (∀ (e : Env) (s : Counter) (reqs : List (Route × ℚ)),
      s.total_requests ≤ (applyReqs e s reqs).total_requests) := by
  refine ⟨rfl, fun s now => rfl, fun e s r now => rfl, fun e s reqs => ?_⟩
  rw [applyReqs_total e reqs s]
  exact Nat.le_add_right _ _

/-- C6: in every reachable state, a snapshot never observes `last_hit_utc`
set while `total_requests = 0`: the last-hit field is unset, or at least one
hit has been counted. -/
theorem snapshot_last_hit_implies_hit (e : Env) (reqs : List (Route × ℚ)) :
    (snapshot (applyReqs e counterInit reqs)).2 = none ∨
    1 ≤ (snapshot (applyReqs e counterInit reqs)).1 :=
  applyReqs_last_some_total e reqs counterInit (Or.inl rfl)

/-- C7: in every state reachable by requests that arrive no earlier than
process start (the clock is monotone), a set `last_hit_utc` is at least
`STARTED_AT`. -/
theorem last_hit_ge_started (e : Env) (reqs : List (Route × ℚ))
    (hreq : ∀ p ∈ reqs, e.started ≤ p.2) :
    ∀ t : ℚ, (applyReqs e counterInit reqs).last_hit_utc = some t → e.started ≤ t :=
  applyReqs_last_ge e e.started reqs counterInit hreq
    (fun _ ht => by simp [counterInit] at ht)

/-- C7 (witness): one request at instant 2 against a process started at 0. -/
theorem last_hit_ge_started_witness : (0 : ℚ) ≤ 2 :=
  last_hit_ge_started ⟨0, "py", "site", "addr"⟩ [(Route.healthz, 2)]
    (by intro p hp; simp at hp; rw [hp]; norm_num) 2 rfl

/-- C8: for `now ≥ started`, `uptime` is the truncated whole-second
difference `now - started`, is non-negative, is monotone in `now`, and
equals 5 at `started + 5`. -/
theorem uptime_spec (started now now2 : ℚ) (h1 : started ≤ now) (h2 : started ≤ now2) :
    uptime_seconds started now = ⌊now - started⌋ ∧
    0 ≤ uptime_seconds started now ∧
    (now ≤ now2 → uptime_seconds started now ≤ uptime_seconds started now2) ∧
    uptime_seconds started (started + 5) = 5 := by
  have hnn : 0 ≤ now - started := by linarith
  have hnn2 : 0 ≤ now2 - started := by linarith
  refine ⟨?_, ?_, ?_, ?_⟩
  · simp [uptime_seconds, py_int, hnn]
  · simp only [uptime_seconds, py_int, if_pos hnn]
    exact Int.le_floor.mpr (by simpa using hnn)
  · intro hle
    simp only [uptime_seconds, py_int, if_pos hnn, if_pos hnn2]
    exact Int.floor_le_floor (by linarith)
  · have h5 : started + 5 - started = (5 : ℚ) := by ring
    simp only [uptime_seconds, py_int, h5]
    norm_num

/-- C8 (witness): `started = 0`, `now = 1`, `now2 = 2`. -/
theorem uptime_spec_witness :
    uptime_seconds 0 1 = ⌊(1 : ℚ) - 0⌋ ∧ 0 ≤ uptime_seconds 0 1 ∧
    uptime_seconds 0 1 ≤ uptime_seconds 0 2 ∧ uptime_seconds 0 (0 + 5) = 5 := by
  have h := uptime_spec 0 1 2 (by norm_num) (by norm_num)
  exact ⟨h.1, h.2.1, h.2.2.1 (by norm_num), h.2.2.2⟩

/-- C9: a `GET /api/status` response never reports `total_requests = 0` and
never reports `last_hit_utc` null: the hook counts the status request itself
before the handler reads the state. -/
theorem status_response_counts_itself (e : Env) (s : Counter) (now : ℚ) :
    respField (handle e s Route.status now).2 "total_requests"
        = some (JAtom.jint ((s.total_requests + 1 : ℕ) : ℤ)) ∧
    (1 : ℤ) ≤ ((s.total_requests + 1 : ℕ) : ℤ) ∧
    respField (handle e s Route.status now).2 "last_hit_utc"
        = some (JAtom.jstr (isoformat now)) ∧
    JAtom.jstr (isoformat now) ≠ JAtom.jnull :=
  ⟨rfl, by exact_mod_cast Nat.succ_le_succ (Nat.zero_le s.total_requests), rfl, by simp⟩

/-- C10: opening any route — `/events` and `/healthz` included — increments
`total_requests` by exactly one; the stream's sampling iteration leaves the
shared state untouched; and across a whole interleaved stream run the state
changes only by the interleaved inbound requests. -/
theorem events_open_counts_once_loop_pure :
    (∀ (e : Env) (s : Counter) (now : ℚ),
      (handle e s Route.events now).1.total_requests = s.total_requests + 1 ∧
      (handle e s Route.healthz now).1.total_requests = s.total_requests + 1) ∧
    (∀ (s : Counter) (started now : ℚ), (gen_step s started now).1 = s) ∧
    (∀ (e : Env) (s : Counter) (opss : List (List (Route × ℚ))) (t0 : ℚ),
      (stream_run e s opss t0).1 = opss.foldl (fun c ops => applyReqs e c ops) s) :=
  ⟨fun _ _ _ => ⟨rfl, rfl⟩, fun _ _ _ => rfl,
   fun e s opss t0 => stream_run_state e opss s t0⟩
